import Mathlib

/-!
Verification development for the coreos-cloud-instance-store-provisioner
pipeline (src/main.rs).  The program is shallowly embedded: every external
command invocation becomes an element of an explicit effect trace, and every
file read becomes a field of an environment record, so the pipeline is a pure
function from an environment to a trace together with a result.
-/

namespace Ccisp

/-! ## String helpers (character-list models of the Rust `str` operations) -/

/-- Model of Rust `str::split(char)`: splits at every occurrence of the
separator, keeping empty segments (so consecutive separators yield empty
strings, and the empty input yields one empty segment). -/
def splitChar (sep : Char) : List Char → List (List Char)
  | [] => [[]]
  | c :: rest =>
    let r := splitChar sep rest
    if c = sep then [] :: r
    else
      match r with
      | [] => [[c]]
      | h :: t => (c :: h) :: t

/-- `str::split(char)` lifted to `String`. -/
def strSplit (sep : Char) (s : String) : List String :=
  (splitChar sep s.data).map String.mk

/-- Model of Rust `str::trim`: drop whitespace from both ends. -/
def trimChars (l : List Char) : List Char :=
  ((l.dropWhile Char.isWhitespace).reverse.dropWhile Char.isWhitespace).reverse

/-- `str::trim` lifted to `String`. -/
def strTrim (s : String) : String := String.mk (trimChars s.data)

/-- Bool-valued string prefix test (model of Rust `str::starts_with`). -/
def strIsPrefixOf (p s : String) : Bool := p.data.isPrefixOf s.data

/-- Model of Rust `str::splitn(2, c)`: at most two pieces, split at the first
occurrence of the separator; a string without the separator stays whole. -/
def splitn2 (c : Char) (s : String) : List String :=
  if s.data.contains c then
    [String.mk (s.data.takeWhile (fun ch => ch != c)),
     String.mk ((s.data.dropWhile (fun ch => ch != c)).drop 1)]
  else [s]

/-! ## Error taxonomy (the fatal conditions the pipeline distinguishes) -/

inductive ProvError where
  | configInvalid
  | platformUndetected
  | noFileName
deriving DecidableEq

/-! ## PlatformDetector (mod coreos in src/main.rs) -/

def CMDLINE_PLATFORM_FLAG : String := "ignition.platform.id"

/-- The `params` list built inside `coreos::find_flag_value`:
`cmdline.split(' ')`, each token split by `splitn(2, '=')`, keeping the
tokens whose split has length 2 as (key, value) pairs. -/
def cmdlineParams (cmdline : String) : List (String × String) :=
  (strSplit ' ' cmdline).filterMap (fun s =>
    let kv := splitn2 '=' s
    match kv with
    | [k, v] => some (k, v)
    | _ => none)

/-- `coreos::find_flag_value`: scan the pairs in order; skip pairs whose key
differs from the flag name, skip pairs whose value trims to empty, return the
first remaining trimmed value. -/
def coreos.find_flag_value (flagname cmdline : String) : Option String :=
  (cmdlineParams cmdline).findSome? (fun kv =>
    if kv.1 = flagname then
      (let bare := strTrim kv.2
       if bare = "" then none else some bare)
    else none)

/-- `coreos::get_platform`: the kernel command line is a field of the
environment (`none` models an unreadable `/proc/cmdline`); a missing flag is
the fatal `PlatformUndetected` condition. -/
def coreos.get_platform (cmdline : Option String) : Except ProvError String :=
  match cmdline with
  | none => Except.error ProvError.platformUndetected
  | some content =>
    match coreos.find_flag_value CMDLINE_PLATFORM_FLAG content with
    | some platform => Except.ok platform
    | none => Except.error ProvError.platformUndetected

/-! ## The tokenization the spec claims (for comparison with the source)

The spec describes the detector as splitting on whitespace and keeping the
tokens that contain exactly one `=` separator.  These definitions follow the
words of the spec, to be compared against `coreos.find_flag_value` above. -/

/-- Splitting at every character satisfying a predicate. -/
def splitByP (p : Char → Bool) : List Char → List (List Char)
  | [] => [[]]
  | c :: rest =>
    let r := splitByP p rest
    if p c then [] :: r
    else
      match r with
      | [] => [[c]]
      | h :: t => (c :: h) :: t

/-- The pair list the spec claims: whitespace-split tokens with exactly one
`=`, as (text before the `=`, text after the `=`). -/
def cmdlineParamsClaimed (cmdline : String) : List (String × String) :=
  (splitByP Char.isWhitespace cmdline.data).filterMap (fun t =>
    if (t.filter (fun ch => ch == '=')).length = 1 then
      some (String.mk (t.takeWhile (fun ch => ch != '=')),
            String.mk ((t.dropWhile (fun ch => ch != '=')).drop 1))
    else none)

/-- The flag lookup the spec claims, over the claimed pair list (same
first-match rule as the source, different tokenization). -/
def find_flag_value_claimed (flagname cmdline : String) : Option String :=
  (cmdlineParamsClaimed cmdline).findSome? (fun kv =>
    if kv.1 = flagname then
      (let bare := strTrim kv.2
       if bare = "" then none else some bare)
    else none)

/-! ## Effect trace

Every external command the program runs (lsblk, wipefs, lvm, mkfs.xfs,
systemctl, chcon) and every filesystem mutation (create_dir, remove_all,
unit-file write) is recorded as one trace element, in program order. -/

inductive Effect where
  | lsblk
  | wipefs (dev : String)
  | pvcreate (dev : String)
  | vgcreate (vg : String) (devs : List String)
  | lvcreateStriped (vg lv : String)
  | mkfsXfs (label dev : String)
  | createDir (path : String)
  | removeAll (path : String)
  | copyContext (src dest : String)
  | writeUnit (what wherePath mntType : String) (opts : Option String)
  | daemonReload
  | enableStart (unitFile : String)
deriving DecidableEq

def Effect.isUnitWrite : Effect → Bool
  | .writeUnit _ _ _ _ => true
  | _ => false

def Effect.isMkfs : Effect → Bool
  | .mkfsXfs _ _ => true
  | _ => false

/-- Directory migration mutations: directory creation and removal, and
security-context propagation. -/
def Effect.isDirMutation : Effect → Bool
  | .createDir _ => true
  | .removeAll _ => true
  | .copyContext _ _ => true
  | _ => false

def Effect.isPvcreate : Effect → Bool
  | .pvcreate _ => true
  | _ => false

def Effect.isVgcreate : Effect → Bool
  | .vgcreate _ _ => true
  | _ => false

def Effect.isLvcreate : Effect → Bool
  | .lvcreateStriped _ _ => true
  | _ => false

/-- Volume-manager invocations (`lvm pvcreate` / `vgcreate` / `lvcreate`). -/
def Effect.isVolumeManager : Effect → Bool
  | .pvcreate _ => true
  | .vgcreate _ _ => true
  | .lvcreateStriped _ _ => true
  | _ => false

/-! ## DeviceCatalog (mod block in src/main.rs) -/

/-- One lsblk node: name, serial, model, label, fstype, optional children. -/
inductive Device where
  | mk (name : String) (serial model label fstype : Option String)
      (children : Option (List Device))

def Device.name : Device → String
  | .mk n _ _ _ _ _ => n

def Device.serial : Device → Option String
  | .mk _ s _ _ _ _ => s

def Device.model : Device → Option String
  | .mk _ _ m _ _ _ => m

def Device.label : Device → Option String
  | .mk _ _ _ l _ _ => l

def Device.fstype : Device → Option String
  | .mk _ _ _ _ f _ => f

def Device.children : Device → Option (List Device)
  | .mk _ _ _ _ _ c => c

/-- `block::Device::path`: `format!("/dev/{}", name)`. -/
def Device.path (d : Device) : String := "/dev/" ++ d.name

/-! ## PlatformDeviceSelector (mods aws, azure, qemu in src/main.rs)

Each selector takes the parsed lsblk output (a field of the environment) and
returns the effect trace of its run together with the selected device
paths.  Each run starts with the `lsblk` invocation of `block::list`. -/

def aws.INSTANCE_MODEL : String := "Amazon EC2 NVMe Instance Storage"

/-- `aws::devices`: top-level devices whose trimmed model equals the fixed
NVMe instance-storage model string. -/
def aws.devices (devs : List Device) : List Effect × List String :=
  ([Effect.lsblk],
   (devs.filter (fun dev =>
     dev.model.any (fun m => strTrim m == aws.INSTANCE_MODEL))).map Device.path)

def azure.MODEL : String := "Virtual Disk"

def azure.FSTYPE : String := "ntfs"

def azure.LABEL : String := "Temporary Storage"

/-- `azure::filtermap_child_ntfs`: the device qualifies only with exactly one
child whose trimmed label and fstype match the fixed strings. -/
def azure.filtermap_child_ntfs (dev : Device) : Option String :=
  match dev.children with
  | some [child] =>
    match child.label, child.fstype with
    | some label, some fstype =>
      if strTrim label == azure.LABEL && strTrim fstype == azure.FSTYPE then
        some dev.path
      else none
    | _, _ => none
  | _ => none

/-- The device paths `azure::devices` selects: model filter, then the
single-ntfs-child filter. -/
def azure.selected (devs : List Device) : List String :=
  ((devs.filter (fun dev =>
    dev.model.any (fun m => strTrim m == azure.MODEL))).filterMap
      azure.filtermap_child_ntfs)

/-- `azure::devices`: each selected device is wiped (`wipefs -a`) before the
list is returned. -/
def azure.devices (devs : List Device) : List Effect × List String :=
  (Effect.lsblk :: (azure.selected devs).map Effect.wipefs,
   azure.selected devs)

def qemu.PREFIX : String := "CoreOSQEMUInstance"

/-- `qemu::devices`: top-level devices whose trimmed serial starts with the
fixed test-instance prefix. -/
def qemu.devices (devs : List Device) : List Effect × List String :=
  ([Effect.lsblk],
   (devs.filter (fun dev =>
     dev.serial.any (fun s => strIsPrefixOf qemu.PREFIX (strTrim s)))).map
       Device.path)

/-! ## VolumeAssembler (mod lvm in src/main.rs, and the match in main) -/

/-- `lvm::escape`: `name.replace('-', "--")`. -/
def lvm.escapeChars : List Char → List Char
  | [] => []
  | c :: rest =>
    if c = '-' then '-' :: '-' :: lvm.escapeChars rest
    else c :: lvm.escapeChars rest

def lvm.escape (name : String) : String := String.mk (lvm.escapeChars name.data)

/-- `lvm::new_striped_lv`: pvcreate each device in order, one vgcreate over
all of them, one striped lvcreate, and the deterministic device-mapper path
built from the escaped names. -/
def lvm.new_striped_lv (lvname vgname : String) (devices : List String) :
    List Effect × String :=
  (devices.map Effect.pvcreate
     ++ [Effect.vgcreate vgname devices, Effect.lvcreateStriped vgname lvname],
   "/dev/mapper/" ++ lvm.escape vgname ++ "-" ++ lvm.escape lvname)

/-! ## MountUnitManager (mod systemd in src/main.rs) -/

/-- Modelled from the spec: the external service-manager unit-naming scheme
(`libsystemd::unit::escape_path`, a dependency crate, not part of this
repository): the mount target path escaped into a unit name, path separators
becoming dashes.  No claim depends on the exact escaping, only on the name
being a function of the target path. -/
def unit_escape_path (p : String) : String :=
  String.intercalate "-" ((strSplit '/' p).filter (fun c => c != ""))

/-- The unit file name `systemd::write_mount_unit` returns. -/
def unitNameFor (wherePath : String) : String :=
  unit_escape_path wherePath ++ ".mount"

/-- The lines of the unit text `systemd::write_mount_unit` writes (the
format string of the source, one list element per line). -/
def systemd.mount_unit_lines (what_path where_path mnt_type : String)
    (opts : Option String) : List String :=
  let optsLine :=
    match opts with
    | some o => "Options=" ++ o
    | none => ""
  ["[Unit]",
   "Before=local-fs.target",
   "RequiresMountsFor=" ++ what_path,
   "",
   "[Mount]",
   "What=" ++ what_path,
   "Where=" ++ where_path,
   "Type=" ++ mnt_type,
   optsLine,
   "",
   "[Install]",
   "WantedBy=local-fs.target",
   ""]

/-- The full unit text (the lines joined by newlines). -/
def systemd.mount_unit_text (what_path where_path mnt_type : String)
    (opts : Option String) : String :=
  String.intercalate "\n"
    (systemd.mount_unit_lines what_path where_path mnt_type opts)

/-- `systemd::write_mount_unit` as a trace step: the unit-file write effect
and the returned unit name. -/
def systemd.write_mount_unit (what_path where_path mnt_type : String)
    (opts : Option String) : List Effect × String :=
  ([Effect.writeUnit what_path where_path mnt_type opts],
   unitNameFor where_path)

/-! ## main (fn main in src/main.rs) -/

def LABEL : String := "ccisp-store"

def MOUNTPOINT : String := "/var/mnt/instance-storage"

/-- Model of Rust `Path::file_name` for the configured directory strings:
the final normal path component, if any. -/
def fileName (p : String) : Option String :=
  let comps := (strSplit '/' p).filter (fun c => c != "" && c != ".")
  match comps.getLast? with
  | some c => if c = ".." then none else some c
  | none => none

/-- The environment a run reads: the parsed configuration (`none` models an
absent configuration file), the kernel command line (`none` models an
unreadable one), the parsed lsblk output, and which paths currently exist. -/
structure Env where
  config : Option (List String)
  cmdline : Option String
  blockdevs : List Device
  dirExists : String → Bool

/-- The platform dispatch of main: a known platform runs its selector,
anything else is the benign "unhandled platform" early exit (`none`). -/
def selectDevices (platform : String) (devs : List Device) :
    Option (List Effect × List String) :=
  match platform with
  | "aws" => some (aws.devices devs)
  | "azure" => some (azure.devices devs)
  | "qemu" => some (qemu.devices devs)
  | _ => none

/-- The device-count match of main: zero devices is the benign "no ephemeral
devices" early exit (`none`); one device is used directly with no further
effects; two or more build the striped logical volume. -/
def assembleVolume : List String → Option (List Effect × String)
  | [] => none
  | [d] => some ([], d)
  | devs => some (lvm.new_striped_lv "striped" "coreos-instance-vg" devs)

/-- One iteration of the directory loop of main: target creation, context
propagation from the original when it exists, recursive removal, re-creation,
and the pending bind-mount unit write; returns the trace and the unit name
recorded for the later batch enable. -/
def migrateDir (ex : String → Bool) (d : String) :
    Except ProvError (List Effect × String) :=
  match fileName d with
  | none => Except.error ProvError.noFileName
  | some name =>
    let target := MOUNTPOINT ++ "/" ++ name
    Except.ok
      ([Effect.createDir target]
         ++ (if ex d then [Effect.copyContext d target] else [])
         ++ [Effect.removeAll d, Effect.createDir d]
         ++ (systemd.write_mount_unit target d "none" (some "bind")).1,
       (systemd.write_mount_unit target d "none" (some "bind")).2)

/-- The directory loop of main over the configured list, in order, collecting
the trace and the pending unit names; a failing iteration aborts the loop. -/
def migrateAll (ex : String → Bool) :
    List String → List Effect × Except ProvError (List String)
  | [] => ([], Except.ok [])
  | d :: rest =>
    match migrateDir ex d with
    | Except.error e => ([], Except.error e)
    | Except.ok (effs, u) =>
      match migrateAll ex rest with
      | (effs2, Except.error e) => (effs ++ effs2, Except.error e)
      | (effs2, Except.ok us) => (effs ++ effs2, Except.ok (u :: us))

/-- fn main: the full pipeline, returning the effect trace in program order
together with the process result. -/
def mainRun (env : Env) : List Effect × Except ProvError Unit :=
  match env.config with
  | none => ([], Except.ok ())
  | some directories =>
    if directories = [] then ([], Except.error ProvError.configInvalid)
    else
      match coreos.get_platform env.cmdline with
      | Except.error e => ([], Except.error e)
      | Except.ok platform =>
        match selectDevices platform env.blockdevs with
        | none => ([], Except.ok ())
        | some (selEffs, instance_devs) =>
          match assembleVolume instance_devs with
          | none => (selEffs, Except.ok ())
          | some (asmEffs, dev) =>
            let byLabel := "/dev/disk/by-label/" ++ LABEL
            let pre := selEffs ++ asmEffs
              ++ [Effect.mkfsXfs LABEL dev, Effect.createDir MOUNTPOINT]
              ++ (systemd.write_mount_unit byLabel MOUNTPOINT "xfs" none).1
              ++ [Effect.daemonReload,
                  Effect.enableStart
                    (systemd.write_mount_unit byLabel MOUNTPOINT "xfs" none).2,
                  Effect.copyContext "/var" MOUNTPOINT]
            match migrateAll env.dirExists directories with
            | (migEffs, Except.error e) => (pre ++ migEffs, Except.error e)
            | (migEffs, Except.ok units) =>
              (pre ++ migEffs ++ [Effect.daemonReload]
                 ++ units.map Effect.enableStart,
               Except.ok ())

/-! ## Claim-side definitions (written from the words of the spec) -/

/-- The Azure match rule as the spec states it: trimmed model equals the
fixed virtual-disk model string, and exactly one child whose trimmed label
and trimmed filesystem type equal the fixed strings. -/
def azureMatch (dev : Device) : Bool :=
  dev.model.any (fun m => strTrim m == azure.MODEL) &&
  (match dev.children with
   | some [child] =>
     child.label.any (fun l => strTrim l == azure.LABEL) &&
     child.fstype.any (fun f => strTrim f == azure.FSTYPE)
   | _ => false)

/-- The per-directory step list the directory-migrator claim enumerates:
create the target, propagate the context of the original when it exists,
remove the original recursively, recreate it empty, write (but do not yet
enable) the bind-mount unit. -/
def migrationSteps (ex : String → Bool) (d : String) : List Effect :=
  match fileName d with
  | none => []
  | some name =>
    let target := MOUNTPOINT ++ "/" ++ name
    [Effect.createDir target]
      ++ (if ex d then [Effect.copyContext d target] else [])
      ++ [Effect.removeAll d, Effect.createDir d,
          Effect.writeUnit target d "none" (some "bind")]

/-- Concatenation of per-directory step lists, in configured order. -/
def concatMapStr (f : String → List Effect) : List String → List Effect
  | [] => []
  | d :: rest => f d ++ concatMapStr f rest

/-- A unit-text line carrying mount options. -/
def isOptionsLine (l : String) : Bool := strIsPrefixOf "Options=" l

/-- Whether a (type, options) pair is the bind-mount configuration this
program writes (main passes type "none", options "bind" for every
directory bind mount). -/
def isBindMount (mnt_type : String) (opts : Option String) : Bool :=
  mnt_type == "none" && opts == some "bind"

/-! ## Concrete environments used by the witnesses -/

/-- No configuration file. -/
def envAbsent : Env :=
  { config := none, cmdline := none, blockdevs := [],
    dirExists := fun _ => false }

/-- Configuration file present with an empty directory list. -/
def envEmptyCfg : Env :=
  { config := some [], cmdline := none, blockdevs := [],
    dirExists := fun _ => false }

/-- AWS platform with one matching NVMe instance-storage device. -/
def envAws : Env :=
  { config := some ["/var/lib/containers"],
    cmdline := some "ignition.platform.id=aws",
    blockdevs := [Device.mk "nvme1n1" none
      (some "Amazon EC2 NVMe Instance Storage") none none none],
    dirExists := fun _ => false }

/-- AWS platform with no matching devices. -/
def envAwsNoDev : Env :=
  { config := some ["/var/lib/containers"],
    cmdline := some "ignition.platform.id=aws",
    blockdevs := [],
    dirExists := fun _ => false }

/-! ## General list lemmas -/

theorem filterMap_eq_filter_map {α β : Type} (f : α → Option β) (p : α → Bool)
    (g : α → β) (h : ∀ a, f a = if p a then some (g a) else none) :
    ∀ l : List α, l.filterMap f = (l.filter p).map g := by
  intro l
  induction l with
  | nil => simp
  | cons a t ih =>
    cases hpa : p a with
    | true => simp [List.filterMap_cons, List.filter_cons, h a, hpa, ih]
    | false => simp [List.filterMap_cons, List.filter_cons, h a, hpa, ih]

theorem findSome?_eq_head?_filter {α β : Type} (f : α → Option β)
    (p : α → Bool) (g : α → β)
    (h : ∀ a, f a = if p a then some (g a) else none) :
    ∀ l : List α, l.findSome? f = (l.filter p).head?.map g := by
  intro l
  induction l with
  | nil => simp
  | cons a t ih =>
    cases hpa : p a with
    | true => simp [List.findSome?_cons, List.filter_cons, h a, hpa]
    | false => simp [List.findSome?_cons, List.filter_cons, h a, hpa, ih]

/-! ## C3: the cmdline tokenization -/

/-- Claim C3 is false as stated: the code keeps a token with two `=`
separators (the claim keeps only tokens with exactly one), and it splits on
the space character only, not on all whitespace (a tab does not separate
tokens).  At `"p=a=b"` the code returns `some "a=b"` where the claimed
tokenization returns `none`; at `"a=1\tb=2"` with flag `"b"` the code
returns `none` where the claimed tokenization returns `some "2"`. -/
theorem c3_counterexample :
    coreos.find_flag_value "p" "p=a=b" = some "a=b" ∧
    find_flag_value_claimed "p" "p=a=b" = none ∧
    coreos.find_flag_value "b" "a=1\tb=2" = none ∧
    find_flag_value_claimed "b" "a=1\tb=2" = some "2" :=
  ⟨rfl, rfl, rfl, rfl⟩

/-- Claim C3, amended: platform detection splits the boot-parameter string on
the space character into tokens and keeps as (key, value) pairs exactly those
tokens that contain at least one `=`, splitting each at its first `=`; for
the string "BOOT_IMAGE=/x ignition.platform.id=aws console=ttyS0" it
returns "aws". -/
theorem c3_tokenization (cmdline : String) :
    cmdlineParams cmdline =
      ((strSplit ' ' cmdline).filter (fun s => s.data.contains '=')).map
        (fun s => (String.mk (s.data.takeWhile (fun ch => ch != '=')),
                   String.mk ((s.data.dropWhile (fun ch => ch != '=')).drop 1)))
    ∧ coreos.find_flag_value "ignition.platform.id"
        "BOOT_IMAGE=/x ignition.platform.id=aws console=ttyS0" = some "aws" := by
  constructor
  · apply filterMap_eq_filter_map
    intro s
    by_cases h : '=' ∈ s.data
    · simp [splitn2, h]
    · simp [splitn2, h]
  · rfl

/-! ## C4: the platform detection result -/

/-- Claim C4 is false as stated: for the boot-parameter string
`"ignition.platform.id= ignition.platform.id=aws"` the first (key, value)
pair whose key matches the platform flag has the value `""` (empty after
trimming), so the claim requires detection to fail with PlatformUndetected;
the code instead skips that pair and returns `"aws"` from the later pair. -/
theorem c4_counterexample :
    coreos.get_platform (some "ignition.platform.id= ignition.platform.id=aws")
      = Except.ok "aws" ∧
    (cmdlineParams "ignition.platform.id= ignition.platform.id=aws").find?
        (fun kv => kv.1 == "ignition.platform.id")
      = some ("ignition.platform.id", "") :=
  ⟨rfl, rfl⟩

/-- Claim C4, amended: platform detection returns the trimmed value of the
first (key, value) pair whose key matches the platform flag name and whose
value is non-empty after trimming, and fails with PlatformUndetected exactly
when no pair has both a matching key and a value non-empty after trimming
(or the boot-parameter source cannot be read). -/
theorem c4_detection (content : String) :
    coreos.get_platform (some content) =
      (match ((cmdlineParams content).filter
          (fun kv => kv.1 == CMDLINE_PLATFORM_FLAG && strTrim kv.2 != "")).head? with
       | some kv => Except.ok (strTrim kv.2)
       | none => Except.error ProvError.platformUndetected)
    ∧ coreos.get_platform none = Except.error ProvError.platformUndetected := by
  constructor
  · have hpt : coreos.find_flag_value CMDLINE_PLATFORM_FLAG content =
        ((cmdlineParams content).filter
          (fun kv => kv.1 == CMDLINE_PLATFORM_FLAG && strTrim kv.2 != "")).head?.map
          (fun kv => strTrim kv.2) := by
      apply findSome?_eq_head?_filter
      intro kv
      by_cases hk : kv.1 = CMDLINE_PLATFORM_FLAG
      · by_cases hv : strTrim kv.2 = ""
        · simp [hk, hv]
        · simp [hk, hv]
      · simp [hk]
    simp only [coreos.get_platform]
    rw [hpt]
    cases ((cmdlineParams content).filter
        (fun kv => kv.1 == CMDLINE_PLATFORM_FLAG && strTrim kv.2 != "")).head? with
    | none => rfl
    | some kv => rfl
  · rfl

/-! ## C2: the generated mount-unit text -/

theorem strDataAppend (s t : String) : (s ++ t).data = s.data ++ t.data := by
  cases s
  cases t
  rfl

theorem isPrefixOf_append_self (l r : List Char) :
    l.isPrefixOf (l ++ r) = true := by
  induction l with
  | nil => simp [List.isPrefixOf]
  | cons a t ih => simp [List.isPrefixOf, ih]

theorem isOptionsLine_append_false (head tail : String) (c : Char)
    (t : List Char) (hh : head.data = c :: t) (hc : c ≠ 'O') :
    isOptionsLine (head ++ tail) = false := by
  have hb : ('O' == c) = false := by
    cases hbe : ('O' == c) with
    | false => rfl
    | true => exact absurd (eq_of_beq hbe).symm hc
  have h1 : (head ++ tail).data = c :: (t ++ tail.data) := by
    rw [strDataAppend, hh]
    rfl
  have h2 : "Options=".data = 'O' :: "ptions=".data := rfl
  simp [isOptionsLine, strIsPrefixOf, h1, h2, List.isPrefixOf, hb]

/-- Claim C2 is false as stated: the dependency declaration
(`RequiresMountsFor=`) is claimed to appear only for non-bind mounts, but the
code emits it unconditionally; here the bind-mount unit main writes for a
migrated directory (type "none", options "bind") contains it. -/
theorem c2_counterexample :
    isBindMount "none" (some "bind") = true ∧
    "RequiresMountsFor=/var/mnt/instance-storage/containers" ∈
      systemd.mount_unit_lines "/var/mnt/instance-storage/containers"
        "/var/lib/containers" "none" (some "bind") := by
  exact ⟨rfl, by decide⟩

/-- Claim C2, amended: for every (what, where, type, options) input, the
generated mount-unit text contains the activation-ordering declaration
before the local-filesystem target; contains the dependency declaration on
`what` unconditionally, for bind and non-bind mounts alike; and contains an
options line exactly when options are present (the lines starting with
"Options=" are exactly the one built from the present options). -/
theorem c2_unit_text (what_path where_path mnt_type : String)
    (opts : Option String) :
    "Before=local-fs.target" ∈
      systemd.mount_unit_lines what_path where_path mnt_type opts ∧
    ("RequiresMountsFor=" ++ what_path) ∈
      systemd.mount_unit_lines what_path where_path mnt_type opts ∧
    (systemd.mount_unit_lines what_path where_path mnt_type opts).filter
        isOptionsLine =
      (match opts with
       | some o => ["Options=" ++ o]
       | none => []) := by
  have hu : isOptionsLine "[Unit]" = false := rfl
  have hbf : isOptionsLine "Before=local-fs.target" = false := rfl
  have hem : isOptionsLine "" = false := rfl
  have hmo : isOptionsLine "[Mount]" = false := rfl
  have hin : isOptionsLine "[Install]" = false := rfl
  have hwb : isOptionsLine "WantedBy=local-fs.target" = false := rfl
  have hreq : isOptionsLine ("RequiresMountsFor=" ++ what_path) = false :=
    isOptionsLine_append_false "RequiresMountsFor=" what_path 'R' _ rfl
      (by decide)
  have hwhat : isOptionsLine ("What=" ++ what_path) = false :=
    isOptionsLine_append_false "What=" what_path 'W' _ rfl (by decide)
  have hwhere : isOptionsLine ("Where=" ++ where_path) = false :=
    isOptionsLine_append_false "Where=" where_path 'W' _ rfl (by decide)
  have htype : isOptionsLine ("Type=" ++ mnt_type) = false :=
    isOptionsLine_append_false "Type=" mnt_type 'T' _ rfl (by decide)
  refine ⟨by simp [systemd.mount_unit_lines], by simp [systemd.mount_unit_lines], ?_⟩
  cases opts with
  | none =>
    simp [systemd.mount_unit_lines, List.filter_cons, hu, hbf, hem, hmo, hin,
      hwb, hreq, hwhat, hwhere, htype]
  | some o =>
    have hopt : isOptionsLine ("Options=" ++ o) = true := by
      simp only [isOptionsLine, strIsPrefixOf, strDataAppend]
      exact isPrefixOf_append_self _ _
    simp [systemd.mount_unit_lines, List.filter_cons, hu, hbf, hem, hmo, hin,
      hwb, hreq, hwhat, hwhere, htype, hopt]

/-! ## C5: Azure device selection -/

theorem azure_selected_eq (devs : List Device) :
    azure.selected devs = (devs.filter azureMatch).map Device.path := by
  induction devs with
  | nil => rfl
  | cons d rest ih =>
    cases hm : d.model.any (fun m => strTrim m == azure.MODEL) with
    | false =>
      simp only [azure.selected, List.filter_cons, hm, azureMatch,
        Bool.false_and, cond_false] at ih ⊢
      exact ih
    | true =>
      have hsel : azure.selected (d :: rest) =
          match azure.filtermap_child_ntfs d with
          | some p => p :: azure.selected rest
          | none => azure.selected rest := by
        simp [azure.selected, List.filter_cons, hm, List.filterMap_cons]
        cases azure.filtermap_child_ntfs d <;> rfl
      cases hch : d.children with
      | none =>
        have hf : azure.filtermap_child_ntfs d = none := by
          simp [azure.filtermap_child_ntfs, hch]
        have hma : azureMatch d = false := by
          simp [azureMatch, hch]
        rw [hsel, hf]
        simp [List.filter_cons, hma, ih]
      | some children =>
        match children with
        | [] =>
          have hf : azure.filtermap_child_ntfs d = none := by
            simp [azure.filtermap_child_ntfs, hch]
          have hma : azureMatch d = false := by
            simp [azureMatch, hch]
          rw [hsel, hf]
          simp [List.filter_cons, hma, ih]
        | c1 :: c2 :: cs =>
          have hf : azure.filtermap_child_ntfs d = none := by
            simp [azure.filtermap_child_ntfs, hch]
          have hma : azureMatch d = false := by
            simp [azureMatch, hch]
          rw [hsel, hf]
          simp [List.filter_cons, hma, ih]
        | [c] =>
          cases hl : c.label with
          | none =>
            have hf : azure.filtermap_child_ntfs d = none := by
              simp [azure.filtermap_child_ntfs, hch, hl]
            have hma : azureMatch d = false := by
              simp [azureMatch, hch, hl]
            rw [hsel, hf]
            simp [List.filter_cons, hma, ih]
          | some lab =>
            cases hft : c.fstype with
            | none =>
              have hf : azure.filtermap_child_ntfs d = none := by
                simp [azure.filtermap_child_ntfs, hch, hl, hft]
              have hma : azureMatch d = false := by
                simp [azureMatch, hch, hl, hft]
              rw [hsel, hf]
              simp [List.filter_cons, hma, ih]
            | some fs =>
              cases hcond : (strTrim lab == azure.LABEL
                  && strTrim fs == azure.FSTYPE) with
              | false =>
                have hf : azure.filtermap_child_ntfs d = none := by
                  simp [azure.filtermap_child_ntfs, hch, hl, hft, hcond]
                have hma : azureMatch d = false := by
                  simp only [azureMatch, hch, hl, hft, Option.any_some, hm,
                    Bool.true_and]
                  exact hcond
                rw [hsel, hf]
                simp [List.filter_cons, hma, ih]
              | true =>
                have hf : azure.filtermap_child_ntfs d = some d.path := by
                  simp only [azure.filtermap_child_ntfs, hch, hl, hft, hcond,
                    if_true]
                have hma : azureMatch d = true := by
                  simp only [azureMatch, hch, hl, hft, Option.any_some, hm,
                    Bool.true_and]
                  exact hcond
                rw [hsel, hf]
                simp [List.filter_cons, hma, ih]

/-- Claim C5: Azure device selection returns exactly the top-level devices
whose trimmed model equals the fixed virtual-disk model string and that have
exactly one child whose trimmed label equals "Temporary Storage" and whose
trimmed filesystem type equals "ntfs" (any other child shape, label or
filesystem type is excluded), and each matched device is wiped (wipefs)
before the device list is returned. -/
theorem c5_azure_selection (devs : List Device) :
    (azure.devices devs).2 = (devs.filter azureMatch).map Device.path ∧
    (azure.devices devs).1 =
      Effect.lsblk ::
        (devs.filter azureMatch).map (fun d => Effect.wipefs d.path) := by
  have h := azure_selected_eq devs
  constructor
  · simpa [azure.devices] using h
  · simp [azure.devices, h, List.map_map]

/-! ## C6: striped-volume assembly -/

theorem countP_map_eq_length {α : Type} (f : α → Effect) (p : Effect → Bool)
    (h : ∀ a, p (f a) = true) (l : List α) :
    (l.map f).countP p = l.length := by
  induction l with
  | nil => rfl
  | cons a t ih => simp [List.countP_cons, h, ih]

theorem countP_map_eq_zero {α : Type} (f : α → Effect) (p : Effect → Bool)
    (h : ∀ a, p (f a) = false) (l : List α) :
    (l.map f).countP p = 0 := by
  induction l with
  | nil => rfl
  | cons a t ih => simp [List.countP_cons, h, ih]

/-- Claim C6: for N selected devices (N ≥ 2), volume assembly performs
physical-volume initialization exactly N times (once per device),
volume-group creation exactly once carrying all N paths, and striped
logical-volume creation exactly once, and returns the path
"/dev/mapper/esc(vg)-esc(lv)" where esc doubles every dash, a deterministic
function of the two names. -/
theorem c6_striped_lv (lvname vgname : String) (devices : List String)
    (h : 2 ≤ devices.length) :
    ((lvm.new_striped_lv lvname vgname devices).1.countP Effect.isPvcreate
        = devices.length) ∧
    (∀ d ∈ devices,
      Effect.pvcreate d ∈ (lvm.new_striped_lv lvname vgname devices).1) ∧
    ((lvm.new_striped_lv lvname vgname devices).1.countP Effect.isVgcreate
        = 1) ∧
    Effect.vgcreate vgname devices ∈
      (lvm.new_striped_lv lvname vgname devices).1 ∧
    ((lvm.new_striped_lv lvname vgname devices).1.countP Effect.isLvcreate
        = 1) ∧
    Effect.lvcreateStriped vgname lvname ∈
      (lvm.new_striped_lv lvname vgname devices).1 ∧
    (lvm.new_striped_lv lvname vgname devices).2 =
      "/dev/mapper/" ++ lvm.escape vgname ++ "-" ++ lvm.escape lvname := by
  refine ⟨?_, ?_, ?_, ?_, ?_, ?_, rfl⟩
  · simp [lvm.new_striped_lv, List.countP_append,
      countP_map_eq_length Effect.pvcreate Effect.isPvcreate (fun a => rfl),
      List.countP_cons, Effect.isPvcreate]
  · intro d hd
    simp only [lvm.new_striped_lv, List.mem_append, List.mem_map]
    exact Or.inl ⟨d, hd, rfl⟩
  · simp [lvm.new_striped_lv, List.countP_append,
      countP_map_eq_zero Effect.pvcreate Effect.isVgcreate (fun a => rfl),
      List.countP_cons, Effect.isVgcreate, Effect.isLvcreate]
  · simp [lvm.new_striped_lv]
  · simp [lvm.new_striped_lv, List.countP_append,
      countP_map_eq_zero Effect.pvcreate Effect.isLvcreate (fun a => rfl),
      List.countP_cons, Effect.isVgcreate, Effect.isLvcreate]
  · simp [lvm.new_striped_lv]

/-- Witness for C6 at two concrete devices. -/
theorem c6_striped_lv_witness :
    2 ≤ (["/dev/nvme1n1", "/dev/nvme2n1"] : List String).length ∧
    (((lvm.new_striped_lv "striped" "coreos-instance-vg"
        ["/dev/nvme1n1", "/dev/nvme2n1"]).1.countP Effect.isPvcreate
        = (["/dev/nvme1n1", "/dev/nvme2n1"] : List String).length) ∧
    (∀ d ∈ (["/dev/nvme1n1", "/dev/nvme2n1"] : List String),
      Effect.pvcreate d ∈ (lvm.new_striped_lv "striped" "coreos-instance-vg"
        ["/dev/nvme1n1", "/dev/nvme2n1"]).1) ∧
    ((lvm.new_striped_lv "striped" "coreos-instance-vg"
        ["/dev/nvme1n1", "/dev/nvme2n1"]).1.countP Effect.isVgcreate = 1) ∧
    Effect.vgcreate "coreos-instance-vg" ["/dev/nvme1n1", "/dev/nvme2n1"] ∈
      (lvm.new_striped_lv "striped" "coreos-instance-vg"
        ["/dev/nvme1n1", "/dev/nvme2n1"]).1 ∧
    ((lvm.new_striped_lv "striped" "coreos-instance-vg"
        ["/dev/nvme1n1", "/dev/nvme2n1"]).1.countP Effect.isLvcreate = 1) ∧
    Effect.lvcreateStriped "coreos-instance-vg" "striped" ∈
      (lvm.new_striped_lv "striped" "coreos-instance-vg"
        ["/dev/nvme1n1", "/dev/nvme2n1"]).1 ∧
    (lvm.new_striped_lv "striped" "coreos-instance-vg"
        ["/dev/nvme1n1", "/dev/nvme2n1"]).2 =
      "/dev/mapper/" ++ lvm.escape "coreos-instance-vg"
        ++ "-" ++ lvm.escape "striped") :=
  ⟨by decide,
   c6_striped_lv "striped" "coreos-instance-vg"
     ["/dev/nvme1n1", "/dev/nvme2n1"] (by decide)⟩

/-! ## C7: single-device pass-through -/

/-- Claim C7: for a selected-device list of exactly one element, volume
assembly returns that device path unchanged with an empty effect trace, so
in particular it performs no volume-manager invocation. -/
theorem c7_single_device (p : String) :
    assembleVolume [p] = some ([], p) ∧
    (([] : List Effect).countP Effect.isVolumeManager = 0) :=
  ⟨rfl, rfl⟩

/-! ## Shape lemmas about the pipeline stages -/

theorem selectDevices_effects {p : String} {devs : List Device}
    {se : List Effect} {sel : List String}
    (h : selectDevices p devs = some (se, sel)) :
    ∀ e ∈ se, e = Effect.lsblk ∨ ∃ d, e = Effect.wipefs d := by
  intro e he
  unfold selectDevices at h
  split at h
  · simp only [aws.devices, Option.some.injEq, Prod.mk.injEq] at h
    obtain ⟨h1, h2⟩ := h
    subst h1
    simp only [List.mem_singleton] at he
    exact Or.inl he
  · simp only [azure.devices, Option.some.injEq, Prod.mk.injEq] at h
    obtain ⟨h1, h2⟩ := h
    subst h1
    rcases List.mem_cons.mp he with h3 | h3
    · exact Or.inl h3
    · rcases List.mem_map.mp h3 with ⟨d, hd, rfl⟩
      exact Or.inr ⟨d, rfl⟩
  · simp only [qemu.devices, Option.some.injEq, Prod.mk.injEq] at h
    obtain ⟨h1, h2⟩ := h
    subst h1
    simp only [List.mem_singleton] at he
    exact Or.inl he
  · cases h

theorem assembleVolume_effects {sel : List String} {ae : List Effect}
    {dev : String} (h : assembleVolume sel = some (ae, dev)) :
    ∀ e ∈ ae, e.isVolumeManager = true := by
  intro e he
  cases sel with
  | nil => cases h
  | cons d rest =>
    cases rest with
    | nil =>
      simp only [assembleVolume, Option.some.injEq, Prod.mk.injEq] at h
      obtain ⟨h1, h2⟩ := h
      subst h1
      cases he
    | cons d2 t =>
      simp only [assembleVolume, lvm.new_striped_lv, Option.some.injEq,
        Prod.mk.injEq] at h
      obtain ⟨h1, h2⟩ := h
      subst h1
      rcases List.mem_append.mp he with h3 | h3
      · rcases List.mem_map.mp h3 with ⟨x, hx, rfl⟩
        rfl
      · rcases List.mem_cons.mp h3 with h4 | h4
        · subst h4; rfl
        · rcases List.mem_cons.mp h4 with h5 | h5
          · subst h5; rfl
          · cases h5

theorem find?_append_all_false {α : Type} (p : α → Bool) (l1 l2 : List α)
    (h : ∀ x ∈ l1, p x = false) :
    (l1 ++ l2).find? p = l2.find? p := by
  induction l1 with
  | nil => simp
  | cons a t ih =>
    have ha : p a = false := h a (List.mem_cons_self a t)
    rw [List.cons_append, List.find?_cons_of_neg _ (by simp [ha])]
    exact ih (fun x hx => h x (List.mem_cons_of_mem a hx))

theorem find?_all_false {α : Type} (p : α → Bool) (l : List α)
    (h : ∀ x ∈ l, p x = false) : l.find? p = none := by
  have := find?_append_all_false p l [] h
  simpa using this

/-! ## C8: zero selected devices -/

/-- Claim C8: when the platform device selector returns zero devices, the
pipeline terminates with success and its trace holds no filesystem
formatting, no mount-unit write, and no directory mutation. -/
theorem c8_no_devices (env : Env) (dirs : List String) (p : String)
    (se : List Effect)
    (hc : env.config = some dirs) (hne : dirs ≠ [])
    (hp : coreos.get_platform env.cmdline = Except.ok p)
    (hs : selectDevices p env.blockdevs = some (se, [])) :
    (mainRun env).2 = Except.ok () ∧
    ∀ e ∈ (mainRun env).1,
      e.isMkfs = false ∧ e.isUnitWrite = false ∧ e.isDirMutation = false := by
  have hmain : mainRun env = (se, Except.ok ()) := by
    simp [mainRun, hc, hne, hp, hs, assembleVolume]
  rw [hmain]
  refine ⟨rfl, ?_⟩
  intro e he
  rcases selectDevices_effects hs e he with h1 | ⟨d, h1⟩ <;> subst h1 <;>
    exact ⟨rfl, rfl, rfl⟩

/-- Witness for C8: AWS platform, no matching block devices. -/
theorem c8_witness :
    (mainRun envAwsNoDev).2 = Except.ok () ∧
    ∀ e ∈ (mainRun envAwsNoDev).1,
      e.isMkfs = false ∧ e.isUnitWrite = false ∧ e.isDirMutation = false :=
  c8_no_devices envAwsNoDev ["/var/lib/containers"] "aws" [Effect.lsblk]
    rfl (by decide) rfl rfl

/-! ## C9: configuration handling -/

/-- Claim C9: an absent configuration file ends the run successfully with an
empty trace; a present configuration whose directory list is empty fails
fatally with an empty trace (before any device discovery or mutation). -/
theorem c9_config (env : Env) :
    (env.config = none → mainRun env = ([], Except.ok ())) ∧
    (env.config = some [] →
      mainRun env = ([], Except.error ProvError.configInvalid)) := by
  constructor
  · intro h
    simp [mainRun, h]
  · intro h
    simp [mainRun, h]

/-- Witness for C9 at the two concrete environments. -/
theorem c9_witness :
    mainRun envAbsent = ([], Except.ok ()) ∧
    mainRun envEmptyCfg = ([], Except.error ProvError.configInvalid) :=
  ⟨(c9_config envAbsent).1 rfl, (c9_config envEmptyCfg).2 rfl⟩

/-! ## C1: the directory migrator -/

theorem migrationSteps_no_enable (ex : String → Bool) (d : String) :
    ∀ e ∈ migrationSteps ex d, ∀ u, e ≠ Effect.enableStart u := by
  intro e he u hcontra
  subst hcontra
  unfold migrationSteps at he
  cases hf : fileName d with
  | none =>
    rw [hf] at he
    cases he
  | some name =>
    rw [hf] at he
    by_cases hex : ex d = true <;> simp [hex] at he

theorem mem_concatMapStr {f : String → List Effect} {e : Effect} :
    ∀ {l : List String}, e ∈ concatMapStr f l → ∃ d ∈ l, e ∈ f d := by
  intro l
  induction l with
  | nil =>
    intro h
    cases h
  | cons d rest ih =>
    intro h
    simp only [concatMapStr] at h
    rcases List.mem_append.mp h with h1 | h1
    · exact ⟨d, List.mem_cons_self d rest, h1⟩
    · obtain ⟨x, hx, hex⟩ := ih h1
      exact ⟨x, List.mem_cons_of_mem d hx, hex⟩

theorem migrateAll_ok (ex : String → Bool) (dirs : List String)
    (hb : ∀ d ∈ dirs, (fileName d).isSome = true) :
    migrateAll ex dirs =
      (concatMapStr (migrationSteps ex) dirs,
       Except.ok (dirs.map unitNameFor)) := by
  induction dirs with
  | nil => rfl
  | cons d rest ih =>
    have hd : (fileName d).isSome = true := hb d (List.mem_cons_self d rest)
    obtain ⟨name, hn⟩ := Option.isSome_iff_exists.mp hd
    have hrest := ih (fun x hx => hb x (List.mem_cons_of_mem d hx))
    have hmd : migrateDir ex d =
        Except.ok (migrationSteps ex d, unitNameFor d) := by
      simp [migrateDir, migrationSteps, hn, systemd.write_mount_unit]
    simp [migrateAll, hmd, hrest, concatMapStr]

/-- Claim C1: with a present non-empty configuration, a detected supported
platform, and at least one selected device, the run trace ends with the
directory-migration segment — the concatenation, in configured order, of the
per-directory step lists (create target; propagate the security context of
the original onto the target when the original exists, before its removal;
remove the original recursively, discarding its contents; recreate it empty;
write the bind-mount unit with what=target, where=directory, type "none",
options "bind") — followed by one daemon-reload and only then the
enable-start of the recorded units: no enable occurs inside the migration
segment, so each bind unit is written but not yet enabled. -/
theorem c1_directory_migration (env : Env) (dirs : List String) (p : String)
    (se ae : List Effect) (sel : List String) (dev : String)
    (hc : env.config = some dirs) (hne : dirs ≠ [])
    (hp : coreos.get_platform env.cmdline = Except.ok p)
    (hs : selectDevices p env.blockdevs = some (se, sel))
    (ha : assembleVolume sel = some (ae, dev))
    (hb : ∀ d ∈ dirs, (fileName d).isSome = true) :
    ∃ (pre : List Effect) (units : List String),
      (mainRun env).1 = pre ++ concatMapStr (migrationSteps env.dirExists) dirs
        ++ [Effect.daemonReload] ++ units.map Effect.enableStart ∧
      (∀ e ∈ concatMapStr (migrationSteps env.dirExists) dirs,
        ∀ u, e ≠ Effect.enableStart u) ∧
      (mainRun env).2 = Except.ok () := by
  have hm := migrateAll_ok env.dirExists dirs hb
  refine ⟨se ++ ae
      ++ [Effect.mkfsXfs LABEL dev, Effect.createDir MOUNTPOINT]
      ++ (systemd.write_mount_unit ("/dev/disk/by-label/" ++ LABEL)
            MOUNTPOINT "xfs" none).1
      ++ [Effect.daemonReload,
          Effect.enableStart (systemd.write_mount_unit
            ("/dev/disk/by-label/" ++ LABEL) MOUNTPOINT "xfs" none).2,
          Effect.copyContext "/var" MOUNTPOINT],
    dirs.map unitNameFor, ?_, ?_, ?_⟩
  · simp [mainRun, hc, hne, hp, hs, ha, hm, systemd.write_mount_unit,
      List.append_assoc]
  · intro e he u
    obtain ⟨d, hd, hed⟩ := mem_concatMapStr he
    exact migrationSteps_no_enable env.dirExists d e hed u
  · simp [mainRun, hc, hne, hp, hs, ha, hm]

/-- Witness for C1: AWS platform, one device, one configured directory. -/
theorem c1_witness :
    ∃ (pre : List Effect) (units : List String),
      (mainRun envAws).1 = pre
        ++ concatMapStr (migrationSteps envAws.dirExists)
             ["/var/lib/containers"]
        ++ [Effect.daemonReload] ++ units.map Effect.enableStart ∧
      (∀ e ∈ concatMapStr (migrationSteps envAws.dirExists)
          ["/var/lib/containers"],
        ∀ u, e ≠ Effect.enableStart u) ∧
      (mainRun envAws).2 = Except.ok () :=
  c1_directory_migration envAws ["/var/lib/containers"] "aws" [Effect.lsblk]
    [] ["/dev/nvme1n1"] "/dev/nvme1n1" rfl (by decide) rfl rfl rfl (by decide)

/-! ## C10: the root mount unit names the by-label path -/

/-- The first unit-write in a trace whose prefix before the root mount-unit
write holds none. -/
theorem find?_unitWrite_prefix (se ae tail : List Effect) (dev : String)
    (hse : ∀ x ∈ se, Effect.isUnitWrite x = false)
    (hae : ∀ x ∈ ae, Effect.isUnitWrite x = false) :
    (se ++ ae ++ [Effect.mkfsXfs LABEL dev, Effect.createDir MOUNTPOINT]
      ++ [Effect.writeUnit ("/dev/disk/by-label/" ++ LABEL) MOUNTPOINT
            "xfs" none]
      ++ tail).find? Effect.isUnitWrite
    = some (Effect.writeUnit ("/dev/disk/by-label/" ++ LABEL) MOUNTPOINT
        "xfs" none) := by
  simp only [List.append_assoc, List.cons_append, List.nil_append]
  rw [find?_append_all_false _ se _ hse, find?_append_all_false _ ae _ hae]
  simp [List.find?, Effect.isUnitWrite]

/-- Claim C10: in every run, the first mount-unit write in the trace (the
root mountpoint unit) names its source device as the fixed by-label path
"/dev/disk/by-label/ccisp-store" — never the assembled device path — with
where the fixed mountpoint, type "xfs" and no options. -/
theorem c10_root_unit_source (env : Env) (e : Effect)
    (h : (mainRun env).1.find? Effect.isUnitWrite = some e) :
    e = Effect.writeUnit "/dev/disk/by-label/ccisp-store"
      "/var/mnt/instance-storage" "xfs" none := by
  rcases hc : env.config with _ | dirs
  · simp [mainRun, hc] at h
  · by_cases hne : dirs = []
    · simp [mainRun, hc, hne] at h
    · rcases hp : coreos.get_platform env.cmdline with epf | p
      · simp [mainRun, hc, hne, hp] at h
      · rcases hs : selectDevices p env.blockdevs with _ | ⟨se, sel⟩
        · simp [mainRun, hc, hne, hp, hs] at h
        · have hse : ∀ x ∈ se, Effect.isUnitWrite x = false := by
            intro x hx
            rcases selectDevices_effects hs x hx with h1 | ⟨d, h1⟩ <;>
              subst h1 <;> rfl
          rcases ha : assembleVolume sel with _ | ⟨ae, dev⟩
          · simp [mainRun, hc, hne, hp, hs, ha] at h
            rw [find?_all_false Effect.isUnitWrite se hse] at h
            cases h
          · have hae : ∀ x ∈ ae, Effect.isUnitWrite x = false := by
              intro x hx
              have := assembleVolume_effects ha x hx
              cases x <;> first | rfl | cases this
            rcases hmm : migrateAll env.dirExists dirs with ⟨migEffs, r⟩
            cases r with
            | error err =>
              have htr : (mainRun env).1 = se ++ ae
                  ++ [Effect.mkfsXfs LABEL dev, Effect.createDir MOUNTPOINT]
                  ++ [Effect.writeUnit ("/dev/disk/by-label/" ++ LABEL)
                        MOUNTPOINT "xfs" none]
                  ++ ([Effect.daemonReload,
                       Effect.enableStart (unitNameFor MOUNTPOINT),
                       Effect.copyContext "/var" MOUNTPOINT] ++ migEffs) := by
                simp [mainRun, hc, hne, hp, hs, ha, hmm,
                  systemd.write_mount_unit, List.append_assoc]
              rw [htr, find?_unitWrite_prefix se ae _ dev hse hae] at h
              injection h with h2
              exact h2.symm
            | ok units =>
              have htr : (mainRun env).1 = se ++ ae
                  ++ [Effect.mkfsXfs LABEL dev, Effect.createDir MOUNTPOINT]
                  ++ [Effect.writeUnit ("/dev/disk/by-label/" ++ LABEL)
                        MOUNTPOINT "xfs" none]
                  ++ ([Effect.daemonReload,
                       Effect.enableStart (unitNameFor MOUNTPOINT),
                       Effect.copyContext "/var" MOUNTPOINT] ++ migEffs
                      ++ [Effect.daemonReload]
                      ++ units.map Effect.enableStart) := by
                simp [mainRun, hc, hne, hp, hs, ha, hmm,
                  systemd.write_mount_unit, List.append_assoc]
              rw [htr, find?_unitWrite_prefix se ae _ dev hse hae] at h
              injection h with h2
              exact h2.symm

/-- Witness for C10 at a concrete AWS run. -/
theorem c10_witness :
    (mainRun envAws).1.find? Effect.isUnitWrite =
      some (Effect.writeUnit "/dev/disk/by-label/ccisp-store"
        "/var/mnt/instance-storage" "xfs" none) ∧
    Effect.writeUnit "/dev/disk/by-label/ccisp-store"
        "/var/mnt/instance-storage" "xfs" none =
      Effect.writeUnit "/dev/disk/by-label/ccisp-store"
        "/var/mnt/instance-storage" "xfs" none :=
  ⟨rfl, c10_root_unit_source envAws _ rfl⟩

end Ccisp
